import Mathlib

/-!
Verification development for the air-quality LINE-bot repository.

The definitions below are a shallow embedding of the historical-query
pipeline (`historical_query.py`) and the shared helpers of
`air_quality_api.py`:

* Python floats are modelled exactly as rationals (`ℚ`); machine rounding
  of decimal literals is abstracted away, which does not affect any of the
  range checks or averages considered here.
* Python strings are Lean `String`s.  `str.strip()` is modelled by
  `pyStrip` (the ASCII whitespace set), substring tests (`m in s`) by
  `strContains`, and `float(s)` by `parseFloat?` covering the
  sign/digits/fraction/exponent grammar (the `inf`/`nan`/underscore forms
  are never produced by the providers and are outside the model).
* `datetime.date` values are modelled by their proleptic-Gregorian ordinal
  (an integer); comparison and day-difference agree with Python's.
* Network calls are modelled by oracle functions passed as parameters, the
  standard shallow embedding of effectful calls.
-/

/-- ASCII whitespace as stripped by Python's `str.strip()`. -/
def isSpaceChar (c : Char) : Bool :=
  c = ' ' || c = '\t' || c = '\n' || c = '\r' || c = '\x0b' || c = '\x0c'

/-- Characters of a string with leading and trailing whitespace removed. -/
def stripList (cs : List Char) : List Char :=
  ((cs.dropWhile isSpaceChar).reverse.dropWhile isSpaceChar).reverse

/-- Model of Python `str.strip()` (no arguments). -/
def pyStrip (s : String) : String := String.mk (stripList s.toList)

/-- Does `hay` contain `needle` as a contiguous sublist? -/
def listContains (needle hay : List Char) : Bool :=
  hay.tails.any (fun t => needle.isPrefixOf t)

/-- Model of Python's substring test `needle in hay`. -/
def strContains (hay needle : String) : Bool :=
  listContains needle.toList hay.toList

/-- Value of a list of decimal digit characters. -/
def digitsToNat (cs : List Char) : Nat :=
  cs.foldl (fun a c => a * 10 + (c.toNat - 48)) 0

/-- Exponent part of a float literal: optional sign and at least one digit,
consuming the whole rest of the string. -/
def parseExpPart (mant : ℚ) (cs : List Char) : Option ℚ :=
  let (eneg, cs1) : Bool × List Char :=
    match cs with
    | '-' :: rest => (true, rest)
    | '+' :: rest => (false, rest)
    | _ => (false, cs)
  let ed := cs1.takeWhile Char.isDigit
  let rest := cs1.dropWhile Char.isDigit
  if ed.isEmpty || !rest.isEmpty then none
  else
    let e := digitsToNat ed
    some (if eneg then mant / 10 ^ e else mant * 10 ^ e)

/-- Model of Python `float(s)` on the finite-literal grammar
`[sign] (digits [. digits] | . digits) [(e|E) [sign] digits]`, returning
the exact rational value. -/
def parseFloat? (s : String) : Option ℚ :=
  let cs := s.toList
  let (neg, cs1) : Bool × List Char :=
    match cs with
    | '-' :: rest => (true, rest)
    | '+' :: rest => (false, rest)
    | _ => (false, cs)
  let ip := cs1.takeWhile Char.isDigit
  let cs2 := cs1.dropWhile Char.isDigit
  let (fp, cs3) : List Char × List Char :=
    match cs2 with
    | '.' :: rest => (rest.takeWhile Char.isDigit, rest.dropWhile Char.isDigit)
    | _ => ([], cs2)
  if ip.isEmpty && fp.isEmpty then none
  else
    let mant : ℚ := (digitsToNat ip : ℚ) + (digitsToNat fp : ℚ) / 10 ^ fp.length
    let signed : Option ℚ :=
      match cs3 with
      | [] => some mant
      | 'e' :: rest => parseExpPart mant rest
      | 'E' :: rest => parseExpPart mant rest
      | _ => none
    signed.map (fun v => if neg then -v else v)

/-- The invalid-data markers of `clean_concentration`
(`invalid_markers = ['#', '*', 'x', 'A', 'NR', 'ND', '', '-']`). -/
def invalid_markers : List String := ["#", "*", "x", "A", "NR", "ND", "", "-"]

/-- Function `clean_concentration` from `historical_query.py` (lines 134-146) /
`air_quality_api.py` (lines 277-313), restricted to string inputs (for a
string `value`, Python's `str(value)` is the identity and `not value`
holds exactly for the empty string).  The two copies in the repository
differ only in combining the two marker checks into one `if`; both are
this function. -/
def clean_concentration (value : String) : Option ℚ :=
  if value = "" then none
  else
    let value_str := pyStrip value
    if invalid_markers.contains value_str
        || invalid_markers.any (fun m => !(m == "") && strContains value_str m) then
      none
    else
      match parseFloat? value_str with
      | some numeric_value =>
          if 0 ≤ numeric_value ∧ numeric_value ≤ 1000 then some numeric_value else none
      | none => none

/-! ## Rounding and means

pandas' `Series.round(0)` rounds half to even (IEEE/numpy rounding); the
subsequent `.astype(int)` converts the integral float to an integer. -/

/-- Round half to even, as `numpy.round` / pandas `Series.round(0)` do. -/
def roundHalfEven (q : ℚ) : ℤ :=
  let f := ⌊q⌋
  if q - f < 1/2 then f
  else if 1/2 < q - f then f + 1
  else if 2 ∣ f then f else f + 1

/-- Python `round(x, 1)`: round half to even at one decimal place. -/
def round1 (q : ℚ) : ℚ := (roundHalfEven (q * 10) : ℚ) / 10

/-- Arithmetic mean of a list of rationals (pandas `mean`, over the
non-null values of a group). -/
def listMean (l : List ℚ) : ℚ := l.sum / l.length

theorem roundHalfEven_nearest (q : ℚ) : |(roundHalfEven q : ℚ) - q| ≤ 1/2 := by
  have hle : (⌊q⌋ : ℚ) ≤ q := Int.floor_le q
  have hlt : q < (⌊q⌋ : ℚ) + 1 := Int.lt_floor_add_one q
  unfold roundHalfEven
  rcases lt_trichotomy (q - (⌊q⌋ : ℚ)) (1/2) with h | h | h
  · rw [if_pos h, abs_sub_le_iff]
    constructor <;> linarith
  · rw [if_neg (by rw [h]; exact lt_irrefl _), if_neg (by rw [h]; exact lt_irrefl _)]
    rcases Decidable.em (2 ∣ ⌊q⌋) with hd | hd
    · rw [if_pos hd, abs_sub_le_iff]; constructor <;> linarith
    · rw [if_neg hd, abs_sub_le_iff, Int.cast_add]
      constructor <;> push_cast <;> linarith
  · rw [if_neg (by linarith), if_pos h, abs_sub_le_iff, Int.cast_add]
    constructor <;> push_cast <;> linarith

/-! ## Sorting of group keys

pandas `groupby` (and `pivot_table`) sorts the group keys; keys here are
pairs (station name, date string), ordered lexicographically by Python's
string order (code-point lexicographic, the same as Lean's `String`
linear order). -/

/-- Lexicographic order on (station, date) keys. -/
def keyR (a b : String × String) : Prop :=
  a.1 < b.1 ∨ (a.1 = b.1 ∧ a.2 ≤ b.2)

instance : DecidableRel keyR := fun a b =>
  inferInstanceAs (Decidable (a.1 < b.1 ∨ (a.1 = b.1 ∧ a.2 ≤ b.2)))

instance : IsTotal (String × String) keyR := by
  constructor
  intro a b
  rcases lt_trichotomy a.1 b.1 with h | h | h
  · exact Or.inl (Or.inl h)
  · rcases le_total a.2 b.2 with h2 | h2
    · exact Or.inl (Or.inr ⟨h, h2⟩)
    · exact Or.inr (Or.inr ⟨h.symm, h2⟩)
  · exact Or.inr (Or.inl h)

instance : IsTrans (String × String) keyR := by
  constructor
  rintro a b c (h1 | ⟨h1, h1'⟩) (h2 | ⟨h2, h2'⟩)
  · exact Or.inl (h1.trans h2)
  · exact Or.inl (h2 ▸ h1)
  · exact Or.inl (h1 ▸ h2)
  · exact Or.inr ⟨h1.trans h2, h1'.trans h2'⟩

instance : IsAntisymm (String × String) keyR := by
  constructor
  intro a b hab hba
  rcases hab with h1 | ⟨h1, h1'⟩ <;> rcases hba with h2 | ⟨h2, h2'⟩
  · exact absurd (h1.trans h2) (lt_irrefl _)
  · exact absurd (lt_of_lt_of_eq h1 h2) (lt_irrefl _)
  · exact absurd (lt_of_lt_of_eq h2 h1) (lt_irrefl _)
  · exact Prod.ext h1 (le_antisymm h1' h2')

/-- Sorted list of the distinct group keys, as `groupby`/`pivot_table`
produce them (first occurrence deduplication followed by sorting gives
the same list for any input order). -/
def sortedKeys (ks : List (String × String)) : List (String × String) :=
  List.insertionSort keyR ks.dedup

theorem sortedKeys_perm_invariant {ks₁ ks₂ : List (String × String)}
    (h : ks₁.Perm ks₂) : sortedKeys ks₁ = sortedKeys ks₂ := by
  apply List.eq_of_perm_of_sorted (r := keyR)
  · exact ((List.perm_insertionSort keyR ks₁.dedup).trans h.dedup).trans
      (List.perm_insertionSort keyR ks₂.dedup).symm
  · exact List.sorted_insertionSort keyR ks₁.dedup
  · exact List.sorted_insertionSort keyR ks₂.dedup

theorem mem_sortedKeys {k : String × String} {ks : List (String × String)} :
    k ∈ sortedKeys ks ↔ k ∈ ks := by
  rw [sortedKeys, (List.perm_insertionSort keyR ks.dedup).mem_iff, List.mem_dedup]

/-! ## Data model: per-reading records -/

/-- One retained commercial-provider (AirLink) reading, as appended by
`fetch_airlink_data_range` (`historical_query.py` lines 120-126): station
name, local-date string, local-datetime string, and the two PM values
(`None` or a rounded float). -/
structure AirRec where
  device : String
  date : String
  datetm : String
  pm25 : Option ℚ
  pm10 : Option ℚ
deriving DecidableEq, Repr

/-- One raw government-provider (MoENV) record as accumulated by
`fetch_moenv_data_range`: tagged station name, `monitordate`, `itemid`
(already a string after `astype(str)`), raw `concentration` string. -/
structure MoRec where
  station_name : String
  monitordate : String
  itemid : String
  concentration : String
deriving DecidableEq, Repr

/-- One row of the daily table produced by `calculate_daily_averages`.
A `none` cell stands for a group with no valid value for that pollutant —
on the real code path this makes `.astype(int)` raise (NaN), which the
orchestrator's catch-all turns into a failure message; no claim below
depends on that branch. -/
structure DailyRow where
  device : String
  date : String
  pm25 : Option ℤ
  pm10 : Option ℤ
deriving DecidableEq, Repr

inductive Pollutant | pm25 | pm10
deriving DecidableEq, Repr

/-- Field selector for an `AirRec` PM value. -/
def AirRec.pm (p : Pollutant) (r : AirRec) : Option ℚ :=
  match p with
  | .pm25 => r.pm25
  | .pm10 => r.pm10

/-- Cell selector for a `DailyRow`. -/
def DailyRow.cell (p : Pollutant) (r : DailyRow) : Option ℤ :=
  match p with
  | .pm25 => r.pm25
  | .pm10 => r.pm10

/-- MoENV `itemid` code of a pollutant (the `{'33': 'PM2.5', '4': 'PM10'}`
mapping of `calculate_daily_averages`, inverted). -/
def Pollutant.code : Pollutant → String
  | .pm25 => "33"
  | .pm10 => "4"

/-! ## Daily aggregation (`calculate_daily_averages`) -/

/-- Group key of an AirLink record: `groupby(["device", "date"])`. -/
def airKey (r : AirRec) : String × String := (r.device, r.date)

/-- The valid (non-null) PM values of one (device, date) group; pandas
`mean` skips nulls. -/
def airVals (p : Pollutant) (rs : List AirRec) (k : String × String) : List ℚ :=
  (rs.filter (fun r => airKey r = k)).filterMap (AirRec.pm p)

/-- One aggregated AirLink cell: group mean rounded half-to-even
(`.round(0).astype(int)`); `none` when the group has no valid value. -/
def airCell (p : Pollutant) (rs : List AirRec) (k : String × String) : Option ℤ :=
  let vals := airVals p rs k
  if vals.isEmpty then none else some (roundHalfEven (listMean vals))

/-- The `airlink_daily` table: group by (device, date), mean each PM
column, round, convert to int, `reset_index()` in sorted key order. -/
def airlinkDaily (rs : List AirRec) : List DailyRow :=
  (sortedKeys (rs.map airKey)).map
    (fun k => ⟨k.1, k.2, airCell .pm25 rs k, airCell .pm10 rs k⟩)

/-- Date string derived from a MoENV `monitordate`:
`pd.to_datetime(...).dt.date` then `str(...).replace('-', '/')`, for the
provider's ISO `YYYY-MM-DD HH:MM:SS` format. -/
def moenvDate (s : String) : String :=
  String.mk ((s.toList.take 10).map (fun c => if c = '-' then '/' else c))

/-- MoENV records surviving the cleaning pipeline of
`calculate_daily_averages` (lines 224-230): concentration sanitized
non-null and `itemid` in `['33', '4']`. -/
def moFiltered (ms : List MoRec) : List MoRec :=
  ms.filter (fun m => (clean_concentration m.concentration).isSome
    && (m.itemid == "33" || m.itemid == "4"))

/-- Group key of a retained MoENV record. -/
def moKey (m : MoRec) : String × String := (m.station_name, moenvDate m.monitordate)

/-- Valid cleaned concentrations of one (station, date, pollutant) group. -/
def moVals (p : Pollutant) (ms : List MoRec) (k : String × String) : List ℚ :=
  ((moFiltered ms).filter (fun m => moKey m = k ∧ m.itemid = p.code)).filterMap
    (fun m => clean_concentration m.concentration)

/-- One pivoted MoENV cell: per-pollutant group mean, rounded, as int. -/
def moCell (p : Pollutant) (ms : List MoRec) (k : String × String) : Option ℤ :=
  let vals := moVals p ms k
  if vals.isEmpty then none else some (roundHalfEven (listMean vals))

/-- The `moenv_daily_wide` table: clean, filter, group by (station, date,
pollutant), mean, pivot pollutants into columns, round, int, with the
pivot index in sorted key order. -/
def moenvWide (ms : List MoRec) : List DailyRow :=
  (sortedKeys ((moFiltered ms).map moKey)).map
    (fun k => ⟨k.1, k.2, moCell .pm25 ms k, moCell .pm10 ms k⟩)

/-- Function `calculate_daily_averages` (`historical_query.py` lines 202-259): the
AirLink daily table concatenated with the MoENV daily table
(`pd.concat(..., ignore_index=True)`; the four emptiness branches all
reduce to plain concatenation of the two sub-tables). -/
def calculate_daily_averages (airlink_records : List AirRec) (moenv_records : List MoRec) :
    List DailyRow :=
  airlinkDaily airlink_records ++ moenvWide moenv_records

/-! ## Calendar rendering

`datetime.date` is modelled by its day count since 1970-01-01 (shifting
Python's proleptic-Gregorian ordinal by a constant, which preserves
comparisons and differences).  `civilFromDays` is the standard
days-to-civil conversion, so `strftime('%Y/%m/%d')` on a timestamp
converted to the Asia/Taipei zone (UTC+8, no DST) is exact. -/

/-- Convert a day count since 1970-01-01 to (year, month, day). -/
def civilFromDays (z0 : ℤ) : ℤ × ℤ × ℤ :=
  let z := z0 + 719468
  let era := Int.fdiv z 146097
  let doe := z - era * 146097
  let yoe := Int.fdiv (doe - Int.fdiv doe 1460 + Int.fdiv doe 36524 - Int.fdiv doe 146096) 365
  let y := yoe + era * 400
  let doy := doe - (365 * yoe + Int.fdiv yoe 4 - Int.fdiv yoe 100)
  let mp := Int.fdiv (5 * doy + 2) 153
  let d := doy - Int.fdiv (153 * mp + 2) 5 + 1
  let m := mp + (if mp < 10 then 3 else -9)
  (y + (if m ≤ 2 then 1 else 0), m, d)

/-- Zero-padded decimal rendering (strftime's `%Y`/`%m`/`%d`/`%H`/`%M`). -/
def zpad (w : ℕ) (n : ℤ) : String :=
  let s := toString n
  String.mk (List.replicate (w - s.length) '0') ++ s

/-- Rendering `%Y/%m/%d` of a Unix-seconds timestamp in the Asia/Taipei zone. -/
def tsToDateStr (ts : ℤ) : String :=
  let (y, m, d) := civilFromDays (Int.fdiv (ts + 28800) 86400)
  zpad 4 y ++ "/" ++ zpad 2 m ++ "/" ++ zpad 2 d

/-- Rendering `%Y/%m/%d %H:%M` of a Unix-seconds timestamp in the Asia/Taipei zone. -/
def tsToDateTimeStr (ts : ℤ) : String :=
  let tw := ts + 28800
  let secOfDay := tw - 86400 * Int.fdiv tw 86400
  tsToDateStr ts ++ " " ++ zpad 2 (Int.fdiv secOfDay 3600) ++ ":" ++
    zpad 2 (Int.fdiv (secOfDay - 3600 * Int.fdiv secOfDay 3600) 60)

/-! ## Commercial-provider client (`fetch_airlink_data_range`) -/

/-- One raw per-reading object of the provider's JSON (`sensors[].data[]`):
the Unix timestamp and the candidate PM fields, each possibly absent. -/
structure SensorRecord where
  ts : Option ℤ
  pm_2p5_avg : Option ℚ
  pm_2p5 : Option ℚ
  pm_2p5_last : Option ℚ
  pm_10_avg : Option ℚ
  pm_10 : Option ℚ
  pm_10_last : Option ℚ
deriving DecidableEq, Repr

/-- One sensor series of the provider's JSON. -/
structure Sensor where
  lsid : Option ℤ
  data : List SensorRecord
deriving DecidableEq, Repr

/-- The static LSID → station-name table `AIRLINK_LSIDS`. -/
def AIRLINK_LSIDS : List (ℤ × String) := [(652269, "南區上"), (655484, "南區下")]

/-- Python truthiness of an optional float: `None` and `0.0` are falsy. -/
def truthyQ : Option ℚ → Bool
  | none => false
  | some v => v ≠ 0

/-- Python's `a or b` on optional floats. -/
def pyOrQ (a b : Option ℚ) : Option ℚ := if truthyQ a then a else b

/-- The stored PM value: `round(pm, 1) if pm else None` — note the guard
tests Python truthiness of the raw value, so a raw `0.0` stores `None`. -/
def storedPM : Option ℚ → Option ℚ
  | none => none
  | some v => if v = 0 then none else some (round1 v)

/-- The PM2.5 fallback chain
`record.get("pm_2p5_avg") or record.get("pm_2p5") or record.get("pm_2p5_last")`. -/
def chain25 (r : SensorRecord) : Option ℚ := pyOrQ (pyOrQ r.pm_2p5_avg r.pm_2p5) r.pm_2p5_last

/-- The PM10 fallback chain. -/
def chain10 (r : SensorRecord) : Option ℚ := pyOrQ (pyOrQ r.pm_10_avg r.pm_10) r.pm_10_last

/-- The per-record body of the record loop (`historical_query.py` lines
107-126): require a truthy `ts`, build the date strings, extract the PM
chains, and append the record iff at least one chain value `is not None`. -/
def processRecord (station_name : String) (r : SensorRecord) : Option AirRec :=
  match r.ts with
  | none => none
  | some ts =>
    if ts = 0 then none
    else
      let pm25 := chain25 r
      let pm10 := chain10 r
      if pm25 ≠ none ∨ pm10 ≠ none then
        some ⟨station_name, tsToDateStr ts, tsToDateTimeStr ts, storedPM pm25, storedPM pm10⟩
      else none

/-- The per-response body of the day loop: keep only sensors whose `lsid`
is in the static table, and run the record loop on their data. -/
def processSensors (sensors : List Sensor) : List AirRec :=
  sensors.flatMap (fun sensor =>
    match sensor.lsid with
    | some lsid =>
      match AIRLINK_LSIDS.find? (fun p => p.1 = lsid) with
      | some entry => sensor.data.filterMap (processRecord entry.2)
      | none => []
    | none => [])

/-- Microseconds per day; the loop cursor is a timezone-aware `datetime`
modelled in epoch microseconds (`datetime.time.max` is `23:59:59.999999`). -/
def usDay : ℤ := 86400000000

/-- The day loop of `fetch_airlink_data_range` (lines 89-129), with the
per-day request `fetch_airlink_historical` as an oracle from the window's
epoch-second bounds to `none` (non-200 / exception) or the response's
sensor list.  The loop has no termination measure — once `current_dt`
reaches `end_dt`, `min(current_dt + 1 day, end_dt)` no longer advances it
— so it is embedded with explicit fuel: `none` means the fuel ran out
with the loop still running. -/
def fetchLoopAux (fetchDay : ℤ → ℤ → Option (List Sensor)) (endUs : ℤ) :
    ℕ → ℤ → List AirRec → Option (List AirRec)
  | 0, _, _ => none
  | fuel + 1, cur, acc =>
    if cur ≤ endUs then
      let next := min (cur + usDay) endUs
      let contrib :=
        match fetchDay (Int.fdiv cur 1000000) (Int.fdiv next 1000000) with
        | some sensors => processSensors sensors
        | none => []
      fetchLoopAux fetchDay endUs fuel next (acc ++ contrib)
    else some acc

/-- Function `fetch_airlink_data_range` over local calendar dates (day numbers):
`start_dt` is local midnight of `start_date`, `end_dt` is
`23:59:59.999999` of `end_date`, both shifted to epoch time (UTC+8). -/
def fetch_airlink_data_range (fetchDay : ℤ → ℤ → Option (List Sensor))
    (start_date end_date : ℤ) (fuel : ℕ) : Option (List AirRec) :=
  fetchLoopAux fetchDay ((end_date + 1) * usDay - 1 - 28800000000) fuel
    (start_date * usDay - 28800000000) []

/-- The PM extraction of the Current-API path
(`air_quality_api.py` lines 154-163): two-step fallback chains, retention
guard `if pm25 or pm10` (truthiness), same stored-value rule.  The
display-only time label is omitted. -/
def currentEntry (latest : SensorRecord) : Option (Option ℚ × Option ℚ) :=
  let pm25 := pyOrQ latest.pm_2p5 latest.pm_2p5_last
  let pm10 := pyOrQ latest.pm_10 latest.pm_10_last
  if truthyQ pm25 || truthyQ pm10 then some (storedPM pm25, storedPM pm10) else none

/-! ## Request signing (`generate_signature`)

HMAC-SHA256 is implemented in full over byte lists (bytes are `ℕ` values
below 256, 32-bit words are reduced with `% 2^32`). -/

/-- Reduce to a 32-bit word. -/
def w32 (n : ℕ) : ℕ := n % 4294967296

/-- 32-bit right rotation. -/
def rotr (x n : ℕ) : ℕ := w32 ((x <<< (32 - n)) ||| (x >>> n))

/-- 32-bit bitwise complement. -/
def wnot (x : ℕ) : ℕ := x ^^^ 4294967295

/-- Upper-case sigma 0 of the compression function. -/
def sumA (x : ℕ) : ℕ := rotr x 2 ^^^ (rotr x 13 ^^^ rotr x 22)

/-- Upper-case sigma 1 of the compression function. -/
def sumE (x : ℕ) : ℕ := rotr x 6 ^^^ (rotr x 11 ^^^ rotr x 25)

/-- Lower-case sigma 0 of the message schedule. -/
def mixLo (x : ℕ) : ℕ := rotr x 7 ^^^ (rotr x 18 ^^^ (x >>> 3))

/-- Lower-case sigma 1 of the message schedule. -/
def mixHi (x : ℕ) : ℕ := rotr x 17 ^^^ (rotr x 19 ^^^ (x >>> 10))

/-- The sixty-four SHA-256 round constants (FIPS 180-4, in decimal). -/
def shaK : List ℕ :=
  [1116352408, 1899447441, 3049323471, 3921009573, 961987163,
   1508970993, 2453635748, 2870763221, 3624381080, 310598401,
   607225278, 1426881987, 1925078388, 2162078206, 2614888103,
   3248222580, 3835390401, 4022224774, 264347078, 604807628,
   770255983, 1249150122, 1555081692, 1996064986, 2554220882,
   2821834349, 2952996808, 3210313671, 3336571891, 3584528711,
   113926993, 338241895, 666307205, 773529912, 1294757372,
   1396182291, 1695183700, 1986661051, 2177026350, 2456956037,
   2730485921, 2820302411, 3259730800, 3345764771, 3516065817,
   3600352804, 4094571909, 275423344, 430227734, 506948616,
   659060556, 883997877, 958139571, 1322822218, 1537002063,
   1747873779, 1955562222, 2024104815, 2227730452, 2361852424,
   2428436474, 2756734187, 3204031479, 3329325298]

/-- The eight SHA-256 initial hash words (FIPS 180-4, in decimal). -/
def shaInit : List ℕ :=
  [1779033703, 3144134277, 1013904242, 2773480762,
   1359893119, 2600822924, 528734635, 1541459225]

/-- SHA-256 working state. -/
structure Hash8 where
  a : ℕ
  b : ℕ
  c : ℕ
  d : ℕ
  e : ℕ
  f : ℕ
  g : ℕ
  h : ℕ

/-- Extend sixteen message-schedule words to sixty-four. -/
def schedule (ws : List ℕ) : List ℕ :=
  (List.range 48).foldl (fun acc _ =>
    let n := acc.length
    acc ++ [w32 (acc.getD (n - 16) 0 + mixLo (acc.getD (n - 15) 0) +
      acc.getD (n - 7) 0 + mixHi (acc.getD (n - 2) 0))]) ws

/-- Compress one 64-byte block into the running hash (eight words). -/
def compressBlock (h0 : List ℕ) (block : List ℕ) : List ℕ :=
  let ws0 := (List.range 16).map (fun i =>
    (block.getD (4 * i) 0) <<< 24 ||| (block.getD (4 * i + 1) 0) <<< 16 |||
      (block.getD (4 * i + 2) 0) <<< 8 ||| block.getD (4 * i + 3) 0)
  let init : Hash8 :=
    ⟨h0.getD 0 0, h0.getD 1 0, h0.getD 2 0, h0.getD 3 0,
     h0.getD 4 0, h0.getD 5 0, h0.getD 6 0, h0.getD 7 0⟩
  let st := (List.zip (schedule ws0) shaK).foldl (fun (st : Hash8) wk =>
    let ch := (st.e &&& st.f) ^^^ (wnot st.e &&& st.g)
    let t1 := w32 (st.h + sumE st.e + ch + wk.2 + wk.1)
    let maj := (st.a &&& st.b) ^^^ (st.a &&& st.c) ^^^ (st.b &&& st.c)
    let t2 := w32 (sumA st.a + maj)
    ⟨w32 (t1 + t2), st.a, st.b, st.c, w32 (st.d + t1), st.e, st.f, st.g⟩) init
  [w32 (h0.getD 0 0 + st.a), w32 (h0.getD 1 0 + st.b), w32 (h0.getD 2 0 + st.c),
   w32 (h0.getD 3 0 + st.d), w32 (h0.getD 4 0 + st.e), w32 (h0.getD 5 0 + st.f),
   w32 (h0.getD 6 0 + st.g), w32 (h0.getD 7 0 + st.h)]

/-- SHA-256 padding: `0x80`, zeros to 56 mod 64, 64-bit big-endian bit length. -/
def padMsg (m : List ℕ) : List ℕ :=
  let l := m.length
  let zeros := (120 - ((l + 1) % 64)) % 64
  m ++ [0x80] ++ List.replicate zeros 0 ++
    (List.range 8).map (fun i => ((8 * l) >>> (8 * (7 - i))) % 256)

/-- SHA-256 of a byte list, as 32 bytes. -/
def sha256Bytes (m : List ℕ) : List ℕ :=
  let p := padMsg m
  let final := (List.range (p.length / 64)).foldl
    (fun h i => compressBlock h ((p.drop (64 * i)).take 64)) shaInit
  final.flatMap (fun w => [(w >>> 24) % 256, (w >>> 16) % 256, (w >>> 8) % 256, w % 256])

/-- Lower-case hex digit. -/
def hexDigitChar (n : ℕ) : Char := "0123456789abcdef".toList.getD n '0'

/-- Lower-case hex string of a byte list (`hexdigest()`). -/
def bytesToHex (bs : List ℕ) : String :=
  String.mk (bs.flatMap (fun b => [hexDigitChar (b / 16), hexDigitChar (b % 16)]))

/-- UTF-8 encoding of a string (`str.encode()`). -/
def utf8Bytes (s : String) : List ℕ :=
  s.toList.flatMap (fun c =>
    let n := c.toNat
    if n < 128 then [n]
    else if n < 2048 then [192 + n / 64, 128 + n % 64]
    else if n < 65536 then [224 + n / 4096, 128 + (n / 64) % 64, 128 + n % 64]
    else [240 + n / 262144, 128 + (n / 4096) % 64, 128 + (n / 64) % 64, 128 + n % 64])

/-- HMAC-SHA256 (RFC 2104) with hex output, as `hmac.new(key, msg,
hashlib.sha256).hexdigest()`. -/
def hmacSha256Hex (key msg : List ℕ) : String :=
  let k0 := if 64 < key.length then sha256Bytes key else key
  let k64 := k0 ++ List.replicate (64 - k0.length) 0
  let inner := sha256Bytes ((k64.map (fun b => b ^^^ 0x36)) ++ msg)
  bytesToHex (sha256Bytes ((k64.map (fun b => b ^^^ 0x5c)) ++ inner))

/-- Function `generate_signature` (`historical_query.py` lines 26-36 /
`air_quality_api.py` lines 25-49): join the field-name/value parts and
HMAC them with the secret. -/
def generate_signature (api_key api_secret : String) (t : ℤ) (station_id : String)
    (start_ts end_ts : ℤ) : String :=
  let parts : List String :=
    ["api-key", api_key,
     "end-timestamp", toString end_ts,
     "start-timestamp", toString start_ts,
     "station-id", station_id,
     "t", toString t]
  let data := String.join parts
  hmacSha256Hex (utf8Bytes api_secret) (utf8Bytes data)

/-! ## Report formatting and the query orchestrator -/

/-- The fixed station display priority of the report formatter. -/
def station_order : List String := ["仁武", "楠梓", "南區上", "南區下"]

/-- String of `n` copies of a character as a string. -/
def repChar (n : ℕ) (c : Char) : String := String.mk (List.replicate n c)

/-- String of `n` copies of a string (Python `s * n`). -/
def strRepeat (s : String) (n : ℕ) : String := String.join (List.replicate n s)

/-- Python `str.ljust` (space fill, code-point width). -/
def ljust (s : String) (n : ℕ) : String := s ++ repChar (n - s.length) ' '

/-- Python `str.rjust` (space fill, code-point width). -/
def rjust (s : String) (n : ℕ) : String := repChar (n - s.length) ' ' ++ s

/-- Split a character list at a separator character. -/
def splitChar (c : Char) (cs : List Char) : List (List Char) :=
  cs.foldr (fun ch acc =>
    if ch = c then [] :: acc
    else
      match acc with
      | [] => [[ch]]
      | g :: gs => (ch :: g) :: gs) [[]]

/-- Republic-of-China display form of a `YYYY/MM/DD` date string:
`int(parts[0]) - 1911`, unpadded month and day. -/
def rocDate (date_str : String) : String :=
  let parts := (splitChar '/' date_str.toList).map String.mk
  toString ((digitsToNat (parts.getD 0 "").toList : ℤ) - 1911) ++ "/" ++
    toString (digitsToNat (parts.getD 1 "").toList) ++ "/" ++
    toString (digitsToNat (parts.getD 2 "").toList)

/-- Rendering `%Y/%m/%d` of a calendar date given as a day number. -/
def dayToDateStr (d : ℤ) : String :=
  let c := civilFromDays d
  zpad 4 c.1 ++ "/" ++ zpad 2 c.2.1 ++ "/" ++ zpad 2 c.2.2

/-- The pivot-table cell for (date, station): `none` both when the pair is
absent from the daily table (pandas pivot inserts NaN, rendered `--`) and
when the stored cell itself is empty. -/
def findCell (t : List DailyRow) (d st : String) (p : Pollutant) : Option ℤ :=
  (t.find? (fun r => r.device = st ∧ r.date = d)).bind (DailyRow.cell p)

/-- Sorted distinct date strings: the pivot's row index. -/
def sortedDates (ds : List String) : List String :=
  List.insertionSort (fun a b : String => a ≤ b) ds.dedup

/-- Function `format_daily_table_message` (`historical_query.py` lines 261-315). -/
def format_daily_table_message (all_daily : List DailyRow) (start_date end_date : ℤ) : String :=
  if all_daily.isEmpty then "❌ 查詢期間無資料"
  else
    let available := station_order.filter (fun st => all_daily.any (fun r => r.device == st))
    let dates := sortedDates (all_daily.map (fun r => r.date))
    "📅 查詢期間: " ++ dayToDateStr start_date ++ " ~ " ++ dayToDateStr end_date ++ "\n\n" ++
    "📊 每日平均值\n" ++ "━━━━━━━━━━━━━━━\n\n" ++
    (ljust "日期" 10 ++ String.join (available.map (fun st => ljust st 12))) ++ "\n" ++
    "     " ++ strRepeat " PM2.5 PM10  " available.length ++ "\n" ++
    strRepeat "─" (10 + 12 * available.length) ++ "\n" ++
    String.join (dates.map (fun d =>
      ljust (rocDate d) 10 ++
      String.join (available.map (fun st =>
        let pm25s := match findCell all_daily d st .pm25 with
          | some v => rjust (toString v) 3
          | none => " --"
        let pm10s := match findCell all_daily d st .pm10 with
          | some v => rjust (toString v) 3
          | none => " --"
        " " ++ pm25s ++ "  " ++ pm10s ++ " ")) ++ "\n"))

/-- Minimum of a list of integers (pandas `.min()`; the empty case cannot
occur on the real path, where every surviving cell is an integer). -/
def listMinZ : List ℤ → ℤ
  | [] => 0
  | x :: xs => xs.foldl min x

/-- Maximum of a list of integers (pandas `.max()`). -/
def listMaxZ : List ℤ → ℤ
  | [] => 0
  | x :: xs => xs.foldl max x

/-- Per-station min/max lines of the statistics report. -/
def statLines (all_daily : List DailyRow) (available : List String) (p : Pollutant) : String :=
  String.join (available.map (fun st =>
    let station_data := all_daily.filter (fun r => r.device == st)
    if station_data.isEmpty then ""
    else
      let vals := station_data.filterMap (DailyRow.cell p)
      ljust st 6 ++ " " ++ rjust (toString (listMinZ vals)) 3 ++ "  " ++
        rjust (toString (listMaxZ vals)) 3 ++ "\n"))

/-- Function `format_statistics_message` (`historical_query.py` lines 317-360). -/
def format_statistics_message (all_daily : List DailyRow) : String :=
  if all_daily.isEmpty then ""
  else
    let available := station_order.filter (fun st => all_daily.any (fun r => r.device == st))
    "\n━━━━━━━━━━━━━━━\n" ++ "📊 統計摘要\n" ++ "━━━━━━━━━━━━━━━\n\n" ++
    "【PM2.5】(法規標準: 30μg/m³)\n" ++ "測站    最小  最大\n" ++ strRepeat "─" 20 ++ "\n" ++
    statLines all_daily available .pm25 ++ "\n" ++
    "【PM10】(法規標準: 75μg/m³)\n" ++ "測站    最小  最大\n" ++ strRepeat "─" 20 ++ "\n" ++
    statLines all_daily available .pm10 ++
    "\n━━━━━━━━━━━━━━━\n" ++ "ℹ️ 資料來源：AirLink、環保署"

/-- The invalid-ordering rejection message. -/
def msgInvalidOrder : String := "❌ 開始日期不能晚於結束日期"

/-- The too-large-span rejection message. -/
def msgRangeTooLarge : String := "❌ 查詢範圍不能超過 30 天"

/-- The distinct no-data-in-range message (`historical_query.py` line 395). -/
def msgNoData (start_date end_date : ℤ) : String :=
  "❌ " ++ dayToDateStr start_date ++ " ~ " ++ dayToDateStr end_date ++ " 期間無資料"

/-- Function `query_historical_data` (`historical_query.py` lines 362-407), with the
two provider clients passed as oracle functions from the date range to
their record lists (the level at which the spec's call-count tests mock
them).  The surrounding `try/except` converts unexpected exceptions into a
failure string; the pure embedding raises none (the NaN `astype` fault
inside aggregation is marked by `none` cells instead), so that branch is
not represented. -/
def query_historical_data (fetchAirlink : ℤ → ℤ → List AirRec)
    (fetchMoenv : ℤ → ℤ → List MoRec) (start_date end_date : ℤ) : String :=
  if start_date > end_date then msgInvalidOrder
  else if end_date - start_date > 30 then msgRangeTooLarge
  else
    let airlink_records := fetchAirlink start_date end_date
    let moenv_records := fetchMoenv start_date end_date
    let all_daily := calculate_daily_averages airlink_records moenv_records
    if all_daily.isEmpty then msgNoData start_date end_date
    else
      format_daily_table_message all_daily start_date end_date ++
        format_statistics_message all_daily

/-! ## Sanitizer claims -/

theorem isPrefixOf_self_list (l : List Char) : l.isPrefixOf l = true := by
  induction l with
  | nil => rfl
  | cons c cs ih => simp [List.isPrefixOf, ih]

theorem strContains_self (s : String) : strContains s s = true := by
  unfold strContains listContains
  cases h : s.toList with
  | nil => simp
  | cons c cs => simp [List.tails, isPrefixOf_self_list]

theorem parseFloat_empty : parseFloat? "" = none := rfl

theorem pyStrip_empty : pyStrip "" = "" := rfl

/-- C3 (amended): any string whose stripped form exactly equals an invalid
marker, or contains a non-empty invalid marker as a substring, is
sanitized to null.  (The substring rule applies to the non-empty markers
only; the code skips the empty-string marker in the containment check.) -/
theorem C3_marker_rejected (s : String)
    (h : pyStrip s ∈ invalid_markers ∨
      ∃ m ∈ invalid_markers, m ≠ "" ∧ strContains (pyStrip s) m = true) :
    clean_concentration s = none := by
  have hb : (invalid_markers.contains (pyStrip s)
      || invalid_markers.any (fun m => !(m == "") && strContains (pyStrip s) m)) = true := by
    rcases h with h | ⟨m, hm, hne, hc⟩
    · have hb1 : invalid_markers.contains (pyStrip s) = true := by simpa using h
      rw [hb1, Bool.true_or]
    · have hb2 : invalid_markers.any (fun m => !(m == "") && strContains (pyStrip s) m) = true := by
        rw [List.any_eq_true]
        exact ⟨m, hm, by simp [hne, hc]⟩
      rw [hb2, Bool.or_true]
  unfold clean_concentration
  by_cases hse : s = ""
  · rw [if_pos hse]
  · rw [if_neg hse, if_pos hb]

/-- C3 counterexample: the marker set contains the empty string, which is
a substring of every string, so the claim as stated would null out every
input; the code accepts `"5"`. -/
theorem C3_counterexample :
    ("" ∈ invalid_markers ∧ strContains (pyStrip "5") "" = true) ∧
      clean_concentration "5" = some 5 := by
  refine ⟨⟨by decide, by decide⟩, ?_⟩
  simp [clean_concentration, pyStrip, stripList, isSpaceChar, invalid_markers, strContains,
    listContains, parseFloat?, Char.isDigit, show digitsToNat ['5'] = 5 from by decide,
    show digitsToNat [] = 0 from by decide]
  norm_num

theorem C3_witness : clean_concentration "x" = none :=
  C3_marker_rejected "x" (Or.inl (by decide))

/-- C2 (amended): for a string whose stripped form parses as a float with
value `q`: if `q` is outside `[0, 1000]` the sanitizer returns null
(unconditionally); if `q` is inside `[0, 1000]` the sanitizer returns `q`
provided the stripped string contains no non-empty invalid marker — a
parseable string containing `-` (scientific notation with a negative
exponent) is nulled by the marker rule even when its value is in range. -/
theorem C2_parse_range (s : String) (q : ℚ)
    (hp : parseFloat? (pyStrip s) = some q) :
    (¬(0 ≤ q ∧ q ≤ 1000) → clean_concentration s = none) ∧
    ((∀ m ∈ invalid_markers, m ≠ "" → strContains (pyStrip s) m = false) →
      clean_concentration s = if 0 ≤ q ∧ q ≤ 1000 then some q else none) := by
  have hs : s ≠ "" := by
    rintro rfl
    rw [pyStrip_empty, parseFloat_empty] at hp
    exact Option.noConfusion hp
  constructor
  · intro hq
    unfold clean_concentration
    rw [if_neg hs]
    by_cases hb : (invalid_markers.contains (pyStrip s)
        || invalid_markers.any (fun m => !(m == "") && strContains (pyStrip s) m)) = true
    · rw [if_pos hb]
    · rw [if_neg hb, hp]
      show (if 0 ≤ q ∧ q ≤ 1000 then some q else none) = none
      exact if_neg hq
  · intro hm
    have hstrip : pyStrip s ≠ "" := by
      intro h0
      rw [h0, parseFloat_empty] at hp
      exact Option.noConfusion hp
    have hc : invalid_markers.contains (pyStrip s) = false := by
      by_contra hcc
      have : pyStrip s ∈ invalid_markers := by
        have := Bool.of_not_eq_false hcc
        simpa using this
      have := hm (pyStrip s) this hstrip
      rw [strContains_self] at this
      exact Bool.noConfusion this
    have ha : invalid_markers.any (fun m => !(m == "") && strContains (pyStrip s) m) = false := by
      rw [List.any_eq_false]
      intro m hmem
      by_cases hne : m = ""
      · simp [hne]
      · simp [hne, hm m hmem hne]
    unfold clean_concentration
    rw [if_neg hs, if_neg (by rw [hc, ha]; exact Bool.false_ne_true), hp]

/-- C2 counterexample: `"1e-1"` parses to `0.1 ∈ [0, 1000]`, but
`clean_concentration` returns null because the string contains the
invalid marker `-`. -/
theorem C2_counterexample :
    parseFloat? (pyStrip "1e-1") = some (1/10) ∧
      ((0 : ℚ) ≤ 1/10 ∧ (1/10 : ℚ) ≤ 1000) ∧
      clean_concentration "1e-1" = none := by
  refine ⟨?_, by norm_num, by decide⟩
  simp [pyStrip, stripList, isSpaceChar, parseFloat?, parseExpPart, Char.isDigit,
    show digitsToNat ['1'] = 1 from by decide, show digitsToNat [] = 0 from by decide]

theorem C2_witness :
    clean_concentration "7.5" =
      if (0 : ℚ) ≤ 15/2 ∧ (15/2 : ℚ) ≤ 1000 then some (15/2) else none :=
  (C2_parse_range "7.5" (15/2)
    (by
      simp [pyStrip, stripList, isSpaceChar, parseFloat?, Char.isDigit,
        show digitsToNat ['7'] = 7 from by decide, show digitsToNat ['5'] = 5 from by decide]
      norm_num)).2
    (by decide)

/-! ## Daily-aggregation claims -/

/-- C1: for every (station, date) group of either provider with at least
one valid reading for a pollutant, the daily table of
`calculate_daily_averages` carries exactly the arithmetic mean of that
group's valid values, rounded (half-to-even) to an integer — which is a
nearest whole unit (distance at most 1/2); no weighting, no outlier
rejection. -/
theorem C1_daily_mean :
    (∀ (rs : List AirRec) (k : String × String) (p : Pollutant),
      k ∈ rs.map airKey → airVals p rs k ≠ [] →
      ∃ row ∈ airlinkDaily rs, row.device = k.1 ∧ row.date = k.2 ∧
        row.cell p = some (roundHalfEven (listMean (airVals p rs k))) ∧
        |(roundHalfEven (listMean (airVals p rs k)) : ℚ) - listMean (airVals p rs k)| ≤ 1/2)
    ∧
    (∀ (ms : List MoRec) (k : String × String) (p : Pollutant),
      k ∈ (moFiltered ms).map moKey → moVals p ms k ≠ [] →
      ∃ row ∈ moenvWide ms, row.device = k.1 ∧ row.date = k.2 ∧
        row.cell p = some (roundHalfEven (listMean (moVals p ms k))) ∧
        |(roundHalfEven (listMean (moVals p ms k)) : ℚ) - listMean (moVals p ms k)| ≤ 1/2) := by
  constructor
  · intro rs k p hk hne
    refine ⟨⟨k.1, k.2, airCell .pm25 rs k, airCell .pm10 rs k⟩,
      List.mem_map_of_mem _ (mem_sortedKeys.mpr hk), rfl, rfl, ?_, roundHalfEven_nearest _⟩
    cases p <;>
      simp only [DailyRow.cell, airCell, listMean] <;>
      rw [if_neg (by simpa [List.isEmpty_iff] using hne)]
  · intro ms k p hk hne
    refine ⟨⟨k.1, k.2, moCell .pm25 ms k, moCell .pm10 ms k⟩,
      List.mem_map_of_mem _ (mem_sortedKeys.mpr hk), rfl, rfl, ?_, roundHalfEven_nearest _⟩
    cases p <;>
      simp only [DailyRow.cell, moCell, listMean] <;>
      rw [if_neg (by simpa [List.isEmpty_iff] using hne)]

theorem C1_witness :
    ∃ row ∈ airlinkDaily
        [⟨"南區上", "2025/10/01", "2025/10/01 08:00", some 10, some 40⟩,
         ⟨"南區上", "2025/10/01", "2025/10/01 09:00", some 20, some 40⟩,
         ⟨"南區上", "2025/10/01", "2025/10/01 10:00", some 30, some 40⟩],
      row.device = "南區上" ∧ row.date = "2025/10/01" ∧ row.pm25 = some 20 := by
  obtain ⟨row, hmem, hdev, hdate, hcell, -⟩ :=
    C1_daily_mean.1
      [⟨"南區上", "2025/10/01", "2025/10/01 08:00", some 10, some 40⟩,
       ⟨"南區上", "2025/10/01", "2025/10/01 09:00", some 20, some 40⟩,
       ⟨"南區上", "2025/10/01", "2025/10/01 10:00", some 30, some 40⟩]
      ("南區上", "2025/10/01") .pm25 (by simp [airKey]) (by decide)
  refine ⟨row, hmem, hdev, hdate, ?_⟩
  have hmean : listMean (airVals .pm25
      [⟨"南區上", "2025/10/01", "2025/10/01 08:00", some 10, some 40⟩,
       ⟨"南區上", "2025/10/01", "2025/10/01 09:00", some 20, some 40⟩,
       ⟨"南區上", "2025/10/01", "2025/10/01 10:00", some 30, some 40⟩]
      ("南區上", "2025/10/01")) = 20 := by
    simp [airVals, airKey, AirRec.pm, listMean]
    norm_num
  rw [hmean] at hcell
  have hr : roundHalfEven 20 = 20 := by
    simp [roundHalfEven]
  rw [hr] at hcell
  exact hcell

/-- Mean-then-round cells agree across permuted value lists. -/
theorem meanCell_perm {l1 l2 : List ℚ} (h : l1.Perm l2) :
    (if l1.isEmpty then none else some (roundHalfEven (listMean l1))) =
    (if l2.isEmpty then none else some (roundHalfEven (listMean l2))) := by
  have hlen := h.length_eq
  have hmean : listMean l1 = listMean l2 := by
    rw [listMean, listMean, h.sum_eq, hlen]
  cases l1 <;> cases l2 <;> simp_all

/-- C4: `calculate_daily_averages` is order-independent — permuting either
input record list leaves the daily table identical (group keys come out
sorted, and group means are order-free). -/
theorem C4_order_independent (a1 a2 : List AirRec) (m1 m2 : List MoRec)
    (ha : a1.Perm a2) (hm : m1.Perm m2) :
    calculate_daily_averages a1 m1 = calculate_daily_averages a2 m2 := by
  unfold calculate_daily_averages
  have hair : airlinkDaily a1 = airlinkDaily a2 := by
    unfold airlinkDaily
    rw [sortedKeys_perm_invariant (ha.map airKey)]
    apply List.map_congr_left
    intro k _
    have hc : ∀ p, airCell p a1 k = airCell p a2 k := by
      intro p
      unfold airCell airVals
      exact meanCell_perm ((ha.filter _).filterMap _)
    rw [hc .pm25, hc .pm10]
  have hmo : moenvWide m1 = moenvWide m2 := by
    unfold moenvWide
    have hf : (moFiltered m1).Perm (moFiltered m2) := hm.filter _
    rw [sortedKeys_perm_invariant (hf.map moKey)]
    apply List.map_congr_left
    intro k _
    have hc : ∀ p, moCell p m1 k = moCell p m2 k := by
      intro p
      unfold moCell moVals
      exact meanCell_perm ((hf.filter _).filterMap _)
    rw [hc .pm25, hc .pm10]
  rw [hair, hmo]

theorem C4_witness :
    calculate_daily_averages
      [⟨"南區上", "2025/10/01", "2025/10/01 08:00", some 10, none⟩,
       ⟨"南區上", "2025/10/01", "2025/10/01 09:00", some 20, some 40⟩]
      [⟨"仁武", "2025-10-01 08:00", "33", "12"⟩] =
    calculate_daily_averages
      [⟨"南區上", "2025/10/01", "2025/10/01 09:00", some 20, some 40⟩,
       ⟨"南區上", "2025/10/01", "2025/10/01 08:00", some 10, none⟩]
      [⟨"仁武", "2025-10-01 08:00", "33", "12"⟩] :=
  C4_order_independent _ _ _ _ (List.Perm.swap _ _ _) (List.Perm.refl _)

/-! ## Orchestrator claims -/

/-- C5: an invalid range (start after end, or span over 30 days) is
rejected before any provider call: the result does not depend on the
provider clients at all, and is one of the two `InvalidRange` user-facing
messages. -/
theorem C5_invalid_range (fA1 fA2 : ℤ → ℤ → List AirRec) (fM1 fM2 : ℤ → ℤ → List MoRec)
    (s e : ℤ) (h : e < s ∨ 30 < e - s) :
    query_historical_data fA1 fM1 s e = query_historical_data fA2 fM2 s e ∧
    (query_historical_data fA1 fM1 s e = msgInvalidOrder ∨
      query_historical_data fA1 fM1 s e = msgRangeTooLarge) := by
  by_cases h1 : s > e
  · constructor
    · simp [query_historical_data, h1]
    · left
      simp [query_historical_data, h1]
  · have h2 : 30 < e - s := by
      rcases h with h | h
      · exact absurd h h1
      · exact h
    constructor
    · simp [query_historical_data, h1, h2]
    · right
      simp [query_historical_data, h1, h2]

theorem C5_witness :
    query_historical_data (fun _ _ => []) (fun _ _ => []) 10 3 =
        query_historical_data (fun _ _ => [⟨"南區上", "d", "dt", some 1, none⟩]) (fun _ _ => []) 10 3 ∧
      (query_historical_data (fun _ _ => []) (fun _ _ => []) 10 3 = msgInvalidOrder ∨
        query_historical_data (fun _ _ => []) (fun _ _ => []) 10 3 = msgRangeTooLarge) :=
  C5_invalid_range _ _ _ _ 10 3 (Or.inl (by decide))

/-- C6: a valid-range query for which both provider clients return empty
record sets yields exactly the distinct no-data message of
`query_historical_data` line 395 (not a provider-failure message and not
an empty report). -/
theorem C6_no_data (fA : ℤ → ℤ → List AirRec) (fM : ℤ → ℤ → List MoRec) (s e : ℤ)
    (h1 : s ≤ e) (h2 : e - s ≤ 30) (hA : fA s e = []) (hM : fM s e = []) :
    query_historical_data fA fM s e = msgNoData s e := by
  have h1' : ¬ s > e := not_lt.mpr h1
  have h2' : ¬ e - s > 30 := not_lt.mpr h2
  simp only [query_historical_data, h1', h2', if_false, hA, hM]
  rfl

theorem C6_witness :
    query_historical_data (fun _ _ => []) (fun _ _ => []) 20362 20365 = msgNoData 20362 20365 :=
  C6_no_data _ _ 20362 20365 (by decide) (by decide) rfl rfl

/-! ## The commercial client's day loop (C7)

`while current_dt <= end_dt` with `next_dt = min(current_dt + 1 day,
end_dt)` keeps `current_dt ≤ end_dt` an invariant of every step: once the
cursor reaches `end_dt` it no longer advances, so the loop never exits. -/

theorem fetchLoopAux_never_exits (f : ℤ → ℤ → Option (List Sensor)) (endUs : ℤ) :
    ∀ (fuel : ℕ) (cur : ℤ) (acc : List AirRec), cur ≤ endUs →
      fetchLoopAux f endUs fuel cur acc = none := by
  intro fuel
  induction fuel with
  | zero => intro cur acc _; rfl
  | succ n ih =>
    intro cur acc h
    rw [fetchLoopAux, if_pos h]
    exact ih _ _ (min_le_right _ _)

/-- C7: contrary to the spec, `fetch_airlink_data_range` never returns on
any valid range (start ≤ end): whatever the per-day request oracle does —
all days failing included — the day loop runs out of any amount of fuel
still in its running state (`none`), because the cursor stops advancing at
`end_dt` while the guard `current_dt <= end_dt` stays true.  In
particular it never returns the claimed empty record list. -/
theorem C7_loop_diverges (fetchDay : ℤ → ℤ → Option (List Sensor))
    (s e : ℤ) (h : s ≤ e) (fuel : ℕ) :
    fetch_airlink_data_range fetchDay s e fuel = none := by
  apply fetchLoopAux_never_exits
  have hd : s * usDay ≤ e * usDay := by
    apply mul_le_mul_of_nonneg_right h
    norm_num [usDay]
  have he : (e + 1) * usDay = e * usDay + usDay := by ring
  simp only [usDay] at hd he ⊢
  linarith

theorem C7_witness :
    fetch_airlink_data_range (fun _ _ => none) 20362 20362 1000 = none :=
  C7_loop_diverges _ 20362 20362 (by decide) 1000

/-! ## Signature claim (C8) -/

/-- The joined message of `generate_signature`, spelled out: field names
and values concatenated with no separators, in the fixed order. -/
theorem signature_message_join (api_key : String) (t : ℤ) (station_id : String)
    (start_ts end_ts : ℤ) :
    String.join ["api-key", api_key, "end-timestamp", toString end_ts,
        "start-timestamp", toString start_ts, "station-id", station_id,
        "t", toString t] =
      "api-key" ++ api_key ++ "end-timestamp" ++ toString end_ts ++
        "start-timestamp" ++ toString start_ts ++ "station-id" ++ station_id ++
        "t" ++ toString t := by
  simp [String.join, List.foldl, String.empty_append]

/-- C8: `generate_signature` is exactly the hex digest of the
secret-keyed HMAC-SHA256 of the separator-free concatenation
`api-key · key · end-timestamp · end · start-timestamp · start ·
station-id · id · t · t`, in that fixed field order. -/
theorem C8_signature_hmac (api_key api_secret : String) (t : ℤ) (station_id : String)
    (start_ts end_ts : ℤ) :
    generate_signature api_key api_secret t station_id start_ts end_ts =
      hmacSha256Hex (utf8Bytes api_secret)
        (utf8Bytes ("api-key" ++ api_key ++ "end-timestamp" ++ toString end_ts ++
          "start-timestamp" ++ toString start_ts ++ "station-id" ++ station_id ++
          "t" ++ toString t)) := by
  have h1 : generate_signature api_key api_secret t station_id start_ts end_ts =
      hmacSha256Hex (utf8Bytes api_secret)
        (utf8Bytes (String.join ["api-key", api_key, "end-timestamp", toString end_ts,
          "start-timestamp", toString start_ts, "station-id", station_id,
          "t", toString t])) := rfl
  rw [h1, signature_message_join]

/-! ## Retention and stored-value claims (C9, C10) -/

/-- Case analysis of the stored-value rule `round(pm, 1) if pm else None`. -/
theorem storedPM_cases (o : Option ℚ) :
    storedPM o = none ∨ ∃ v, o = some v ∧ v ≠ 0 ∧ storedPM o = some (round1 v) := by
  cases o with
  | none => exact Or.inl rfl
  | some v =>
    by_cases hv : v = 0
    · exact Or.inl (by simp [storedPM, hv])
    · exact Or.inr ⟨v, rfl, hv, by simp [storedPM, hv]⟩

theorem storedPM_zero : storedPM (some 0) = none := by simp [storedPM]

theorem storedPM_eq_some {o : Option ℚ} {x : ℚ} (h : storedPM o = some x) :
    ∃ v, o = some v ∧ v ≠ 0 ∧ x = round1 v := by
  cases o with
  | none => exact absurd h (by simp [storedPM])
  | some v =>
    by_cases hv : v = 0
    · rw [hv] at h
      exact absurd h (by simp [storedPM])
    · refine ⟨v, rfl, hv, ?_⟩
      have := h.symm
      simpa [storedPM, hv] using this

/-- Invert one step of the record loop: a retained record is the literal
record built from the chains. -/
theorem processRecord_inv {sn : String} {r : SensorRecord} {rec : AirRec}
    (h : processRecord sn r = some rec) :
    ∃ ts, r.ts = some ts ∧ ts ≠ 0 ∧ (chain25 r ≠ none ∨ chain10 r ≠ none) ∧
      rec = ⟨sn, tsToDateStr ts, tsToDateTimeStr ts, storedPM (chain25 r), storedPM (chain10 r)⟩ := by
  unfold processRecord at h
  cases hts : r.ts with
  | none => rw [hts] at h; exact Option.noConfusion h
  | some ts =>
    rw [hts] at h
    have h' : (if ts = 0 then (none : Option AirRec)
        else if chain25 r ≠ none ∨ chain10 r ≠ none then
          some ⟨sn, tsToDateStr ts, tsToDateTimeStr ts, storedPM (chain25 r), storedPM (chain10 r)⟩
        else none) = some rec := h
    by_cases h0 : ts = 0
    · rw [if_pos h0] at h'; exact Option.noConfusion h'
    · rw [if_neg h0] at h'
      by_cases hret : chain25 r ≠ none ∨ chain10 r ≠ none
      · rw [if_pos hret] at h'
        injection h' with h'
        exact ⟨ts, rfl, h0, hret, h'.symm⟩
      · rw [if_neg hret] at h'; exact Option.noConfusion h'

/-- C9 (amended): a reading is retained by the commercial record loop iff
at least one of its raw PM chains is non-null (`is not None`), and each
stored field is then null or the rounded value of a nonzero raw; since
the stored-value guard treats a raw `0.0` as falsy, a retained reading
whose only present raw value is exactly `0.0` carries two null stored
fields.  On the government side, every record surviving the aggregation
filter has a sanitizer-valid concentration. -/
theorem C9_retention :
    (∀ (sn : String) (r : SensorRecord) (rec : AirRec), processRecord sn r = some rec →
      (chain25 r ≠ none ∨ chain10 r ≠ none) ∧
      (rec.pm25 = none ∨ ∃ v, chain25 r = some v ∧ v ≠ 0 ∧ rec.pm25 = some (round1 v)) ∧
      (rec.pm10 = none ∨ ∃ v, chain10 r = some v ∧ v ≠ 0 ∧ rec.pm10 = some (round1 v)))
    ∧
    (∀ (ms : List MoRec) (m : MoRec), m ∈ moFiltered ms →
      (clean_concentration m.concentration).isSome = true) := by
  constructor
  · intro sn r rec h
    obtain ⟨ts, -, -, hret, rfl⟩ := processRecord_inv h
    refine ⟨hret, ?_, ?_⟩
    · rcases storedPM_cases (chain25 r) with h25 | ⟨v, hv, hvne, hst⟩
      · exact Or.inl h25
      · exact Or.inr ⟨v, hv, hvne, hst⟩
    · rcases storedPM_cases (chain10 r) with h10 | ⟨v, hv, hvne, hst⟩
      · exact Or.inl h10
      · exact Or.inr ⟨v, hv, hvne, hst⟩
  · intro ms m hmem
    have h2 := (List.mem_filter.mp hmem).2
    simp only [Bool.and_eq_true] at h2
    exact h2.1

/-- C9 counterexample: a reading whose only present raw field is
`pm_2p5_last = 0.0` passes the `is not None` retention check but is
stored with both PM fields null — a retained reading with no valid value,
contradicting the claimed invariant. -/
theorem C9_counterexample :
    processRecord "南區上" ⟨some 1759276800, none, none, some 0, none, none, none⟩ =
      some ⟨"南區上", "2025/10/01", "2025/10/01 08:00", none, none⟩ := by
  have hd : tsToDateStr 1759276800 = "2025/10/01" := by decide
  have hdt : tsToDateTimeStr 1759276800 = "2025/10/01 08:00" := by decide
  simp [processRecord, chain25, chain10, pyOrQ, truthyQ, storedPM, hd, hdt]

theorem C9_witness :
    ((chain25 ⟨some 1759276800, some 3, none, none, none, none, none⟩ ≠ none ∨
        chain10 ⟨some 1759276800, some 3, none, none, none, none, none⟩ ≠ none) ∧
      ((some (round1 3) : Option ℚ) = none ∨
        ∃ v, chain25 ⟨some 1759276800, some 3, none, none, none, none, none⟩ = some v ∧
          v ≠ 0 ∧ (some (round1 3) : Option ℚ) = some (round1 v)) ∧
      ((none : Option ℚ) = none ∨
        ∃ v, chain10 ⟨some 1759276800, some 3, none, none, none, none, none⟩ = some v ∧
          v ≠ 0 ∧ (none : Option ℚ) = some (round1 v))) ∧
    (clean_concentration "12").isSome = true := by
  have hc : clean_concentration "12" = some 12 := by
    simp [clean_concentration, pyStrip, stripList, isSpaceChar, invalid_markers, strContains,
      listContains, parseFloat?, Char.isDigit, show digitsToNat ['1', '2'] = 12 from by decide,
      show digitsToNat [] = 0 from by decide]
    norm_num
  constructor
  · exact C9_retention.1 "南區上" ⟨some 1759276800, some 3, none, none, none, none, none⟩
      ⟨"南區上", tsToDateStr 1759276800, tsToDateTimeStr 1759276800, some (round1 3), none⟩ rfl
  · exact C9_retention.2 [⟨"仁武", "2025-10-01 08:00", "33", "12"⟩]
      ⟨"仁武", "2025-10-01 08:00", "33", "12"⟩ (by simp [moFiltered, hc])

/-- C10 (amended): in a retained commercial reading, a raw chain value of
exactly `0.0` is stored as null (the falsy-zero guard), and every stored
number is `round(v, 1)` of a nonzero raw chain value `v` — but such a
rounded value can itself be `0.0` (for `0 < v < 0.05`), so a zero can
still appear as the number `0` at the public interface.  The same holds
for the Current-API path. -/
theorem C10_stored_values :
    (∀ (sn : String) (r : SensorRecord) (rec : AirRec), processRecord sn r = some rec →
      (chain25 r = some 0 → rec.pm25 = none) ∧ (chain10 r = some 0 → rec.pm10 = none) ∧
      (∀ x, rec.pm25 = some x → ∃ v, chain25 r = some v ∧ v ≠ 0 ∧ x = round1 v) ∧
      (∀ x, rec.pm10 = some x → ∃ v, chain10 r = some v ∧ v ≠ 0 ∧ x = round1 v))
    ∧
    (∀ (latest : SensorRecord) (entry : Option ℚ × Option ℚ), currentEntry latest = some entry →
      (pyOrQ latest.pm_2p5 latest.pm_2p5_last = some 0 → entry.1 = none) ∧
      (∀ x, entry.1 = some x →
        ∃ v, pyOrQ latest.pm_2p5 latest.pm_2p5_last = some v ∧ v ≠ 0 ∧ x = round1 v)) := by
  constructor
  · intro sn r rec h
    obtain ⟨ts, -, -, -, rfl⟩ := processRecord_inv h
    refine ⟨?_, ?_, ?_, ?_⟩
    · intro hz
      show storedPM (chain25 r) = none
      rw [hz]; exact storedPM_zero
    · intro hz
      show storedPM (chain10 r) = none
      rw [hz]; exact storedPM_zero
    · intro x hx
      exact storedPM_eq_some hx
    · intro x hx
      exact storedPM_eq_some hx
  · intro latest entry h
    unfold currentEntry at h
    by_cases hc : (truthyQ (pyOrQ latest.pm_2p5 latest.pm_2p5_last)
        || truthyQ (pyOrQ latest.pm_10 latest.pm_10_last)) = true
    · rw [if_pos hc] at h
      injection h with h
      subst h
      refine ⟨?_, ?_⟩
      · intro hz
        show storedPM (pyOrQ latest.pm_2p5 latest.pm_2p5_last) = none
        rw [hz]; exact storedPM_zero
      · intro x hx
        exact storedPM_eq_some hx
    · rw [if_neg hc] at h
      exact Option.noConfusion h

/-- C10 counterexample: a raw `pm_2p5_avg = 0.04` is truthy, so it is
retained and stored as `round(0.04, 1) = 0.0` — the number zero does
appear at the public interface, refuting "null or a nonzero float". -/
theorem C10_counterexample :
    processRecord "南區上" ⟨some 1759276800, some (1/25), none, none, none, none, none⟩ =
      some ⟨"南區上", "2025/10/01", "2025/10/01 08:00", some 0, none⟩ := by
  have hd : tsToDateStr 1759276800 = "2025/10/01" := by decide
  have hdt : tsToDateTimeStr 1759276800 = "2025/10/01 08:00" := by decide
  have hr : round1 ((25 : ℚ)⁻¹) = 0 := by
    have h0 : roundHalfEven ((25 : ℚ)⁻¹ * 10) = 0 := by
      norm_num [roundHalfEven]
    rw [round1, h0]
    norm_num
  simp [processRecord, chain25, chain10, pyOrQ, truthyQ, storedPM, hd, hdt, hr,
    show ((25 : ℚ)⁻¹) ≠ 0 from by norm_num]

theorem C10_witness :
    ((chain25 ⟨some 1759276800, none, none, none, some 7, none, none⟩ = some 0 →
        (none : Option ℚ) = none) ∧
      (chain10 ⟨some 1759276800, none, none, none, some 7, none, none⟩ = some 0 →
        (some (round1 7) : Option ℚ) = none) ∧
      (∀ x, (none : Option ℚ) = some x →
        ∃ v, chain25 ⟨some 1759276800, none, none, none, some 7, none, none⟩ = some v ∧
          v ≠ 0 ∧ x = round1 v) ∧
      (∀ x, (some (round1 7) : Option ℚ) = some x →
        ∃ v, chain10 ⟨some 1759276800, none, none, none, some 7, none, none⟩ = some v ∧
          v ≠ 0 ∧ x = round1 v)) ∧
    ((pyOrQ (some 4) none = some 0 → (some (round1 4) : Option ℚ) = none) ∧
      (∀ x, (some (round1 4) : Option ℚ) = some x →
        ∃ v, pyOrQ (some 4) none = some v ∧ v ≠ 0 ∧ x = round1 v)) := by
  constructor
  · have h := C10_stored_values.1 "南區上" ⟨some 1759276800, none, none, none, some 7, none, none⟩
      ⟨"南區上", tsToDateStr 1759276800, tsToDateTimeStr 1759276800, none, some (round1 7)⟩ rfl
    dsimp only at h
    exact h
  · have h := C10_stored_values.2 ⟨none, none, some 4, none, none, none, none⟩
      (some (round1 4), none) rfl
    exact h
